import Mathlib

/-!
Verification of the RadarELP lead-generation pipeline.

The Python modules `app/scoring.py`, `app/hh_jobs.py`, `app/storage.py` and
`app/main.py` are shallowly embedded: pure functions become Lean functions,
the SQLite-backed storage becomes an explicit record of lists, and the
orchestration loops of `run_radar_once` become folds over explicit input
data, with the external fetches supplied as `Except`-valued oracles.
-/

namespace Radar

/-! ### String helpers

Python performs case-insensitive matching via `str.lower()` and substring
tests via `needle in haystack`.  `pyLowerChar` models `str.lower` on the
character ranges that actually occur in this code base (ASCII letters and
the Cyrillic alphabet, including Ё). -/

def pyLowerChar (c : Char) : Char :=
  if 0x41 ≤ c.toNat ∧ c.toNat ≤ 0x5A then Char.ofNat (c.toNat + 32)
  else if 0x410 ≤ c.toNat ∧ c.toNat ≤ 0x42F then Char.ofNat (c.toNat + 32)
  else if c.toNat = 0x401 then Char.ofNat 0x451
  else c

def pyLower (s : String) : String :=
  String.mk (s.data.map pyLowerChar)

/-- Substring containment on character lists: does `needle` occur
contiguously inside `hay`? -/
def listContainsSub : List Char → List Char → Bool
  | [], needle => needle.isEmpty
  | a :: t, needle => needle.isPrefixOf (a :: t) || listContainsSub t needle

/-- Python `needle in hay` for strings. -/
def inStr (needle hay : String) : Bool :=
  listContainsSub hay.data needle.data

/-- Python `str.strip(chars)`: drop characters satisfying `f` from both ends. -/
def pyStrip (f : Char → Bool) (s : List Char) : List Char :=
  ((s.dropWhile f).reverse.dropWhile f).reverse

/-- The whitespace class used by `str.strip()` and by `\s` in the regexes of
this code base (ASCII whitespace; the titles handled here contain no exotic
Unicode spaces). -/
def isPySpace (c : Char) : Bool :=
  c = ' ' || c = '\t' || c = '\n' || c = '\r' || c = '\x0b' || c = '\x0c'

/-! ### `app/scoring.py` -/

def STRONG_SIGNAL_KEYWORDS : List String :=
  ["warehouse", "distribution center", "distribution centre", "logistics hub",
   "fulfillment center", "fulfilment center", "supply chain", "warehouse jobs",
   "logistics jobs", "ваканс", "склад", "распределительный центр",
   "логистический центр", "логистический хаб", "фулфилмент",
   "центр обработки заказов", "тендер", "закупк", "инвестиц", "расширен",
   "открыт", "запуск", "строительств"]

def REGION_KEYWORDS : List String :=
  ["kazakhstan", "алматы", "almaty", "астана", "astana", "kazakh", "казахстан",
   "центральная азия", "central asia"]

def SEGMENT_KEYWORDS : List (String × List String) :=
  [("E-COM", ["e-commerce", "ecommerce", "онлайн", "маркетплейс", "marketplace"]),
   ("3PL", ["3pl", "logistics provider", "логистический оператор", "фулфилмент"]),
   ("FMCG", ["fmcg", "food", "retail", "ритейл", "продукт", "товары повседневного спроса"]),
   ("Distribution",
    ["дистрибуц", "дистрибьют", "distribution", "дистрибуционный центр",
     "распределительный центр", "оптовый"]),
   ("Warehouse Real Estate",
    ["аренда склада", "складская недвижимость", "складской комплекс",
     "складской парк", "логистический парк", "индустриальный парк",
     "индустриальная зона", "склад класс a", "склад класс b", "склад класс c",
     "warehousing", "warehouse leasing"]),
   ("Auto/Spec Tech",
    ["автоспецтех", "спецтех", "складская техника", "погрузчик", "forklift",
     "reach truck", "material handling"]),
   ("Industrial", ["industrial", "manufacturing", "завод", "production", "промышлен"]),
   ("Cold Chain", ["cold chain", "холодная цепь", "температурн", "холодильн"])]

def TIMING_RULES : List (String × List String) :=
  [("0–3 мес", ["opens", "opening", "launch", "запуск", "открытие", "открыл"]),
   ("0–6 мес", ["tender", "тендер", "rfp", "закуп"]),
   ("3–12 мес", ["construction", "строитель", "planning", "проект"]),
   ("6–24 мес", ["announce", "announced", "announces", "announced", "invest", "инвест"])]

def detect_segment (title summary : String) : String :=
  let text := pyLower (title ++ " " ++ summary)
  match SEGMENT_KEYWORDS.find? (fun p => p.2.any (fun k => inStr k text)) with
  | some p => p.1
  | none => "Other"

def detect_timing (title summary : String) : String :=
  let text := pyLower (title ++ " " ++ summary)
  match TIMING_RULES.find? (fun p => p.2.any (fun k => inStr k text)) with
  | some p => p.1
  | none => "3–12 мес"

def demand_score (title summary : String) : Nat :=
  let text := pyLower (title ++ " " ++ summary)
  let nmatch := (STRONG_SIGNAL_KEYWORDS.filter (fun k => inStr k text)).length
  let score := if nmatch ≠ 0 then min 60 (nmatch * 10) else 0
  let score := if REGION_KEYWORDS.any (fun k => inStr k text) then score + 10 else score
  let score :=
    if inStr ("vacanc") text || inStr ("ваканс") text || inStr ("jobs") text then
      score + 10
    else score
  let score :=
    if inStr ("tender") text || inStr ("тендер") text || inStr ("закуп") text then
      score + 10
    else score
  let score :=
    if inStr ("investment") text || inStr ("инвест") text then score + 10 else score
  let score := if score = 0 then 5 else score
  min score 100

/-- `re.split(r"\s[-|:]\s", title)`: the first part is the prefix of the
title before the first occurrence of whitespace, delimiter, whitespace. -/
def takeUntilDelim : List Char → List Char
  | a :: b :: c :: rest =>
      if isPySpace a && (b = '-' || b = '|' || b = ':') && isPySpace c then []
      else a :: takeUntilDelim (b :: c :: rest)
  | l => l

def guess_company (title : String) : String :=
  if title = "" then ""
  else
    let candidate := pyStrip isPySpace (takeUntilDelim title.data)
    String.mk (pyStrip (fun c => c = '"' || c = '“' || c = '”') candidate)

/-! ### `tenant_match_score` (`app/scoring.py`)

Profile and listing dictionaries become records; `None` becomes `none`, a
missing/`None` string field becomes `""` (the code coalesces with `or ""`),
and the numeric price/budget fields become rationals (Python floats; no
claim here depends on float rounding).  The Python function accumulates
`score` through six independent blocks; it is embedded as the sum of the
six block contributions, with the reason strings concatenated in block
order, which is extensionally the same accumulation. -/

structure TenantProfile where
  budget_min : Option ℚ
  budget_max : Option ℚ
  district : String
  property_type : String
  pets : String
  parking : String
deriving DecidableEq

structure Listing where
  price : Option ℚ
  district : String
  property_type : String
  pets_allowed : Bool
  parking : Bool
  verified_at : String
deriving DecidableEq

/-- Python `abs` on rationals, written so the kernel can evaluate it. -/
def pyAbs (q : ℚ) : ℚ := if q < 0 then -q else q

/-- Python two-argument `min` on rationals. -/
def pyMin (a b : ℚ) : ℚ := if b < a then b else a

/-- Python two-argument `max` on rationals. -/
def pyMax (a b : ℚ) : ℚ := if a < b then b else a

/-- The `if price is not None: ...` block.  `(budget_max or budget_min)`
picks `budget_min` when `budget_max` is falsy, i.e. equal to `0`. -/
def priceBlock (profile : TenantProfile) (listing : Listing) : Int × List String :=
  match listing.price with
  | none => (0, [])
  | some price =>
    match profile.budget_min, profile.budget_max with
    | some bmin, some bmax =>
        if bmin ≤ price ∧ price ≤ bmax then (35, ["в бюджете"])
        else
          let delta := pyMin (pyAbs (price - bmin)) (pyAbs (price - bmax))
          if delta ≤ pyMax 1 ((if bmax ≠ 0 then bmax else bmin) * (1 / 10)) then
            (15, ["почти в бюджете"])
          else (0, [])
    | none, some bmax => if price ≤ bmax then (30, ["в пределах бюджета"]) else (0, [])
    | some bmin, none => if bmin ≤ price then (20, ["выше минимального бюджета"]) else (0, [])
    | none, none => (0, [])

/-- The district block: note the condition is
`district == listing_district or district in listing_district` — a
substring test in one direction only. -/
def districtBlock (profile : TenantProfile) (listing : Listing) : Int × List String :=
  let district := pyLower profile.district
  let listing_district := pyLower listing.district
  if district ≠ "" ∧ listing_district ≠ "" then
    if district = listing_district ∨ inStr district listing_district then
      (25, ["нужный район"])
    else (0, [])
  else (0, [])

/-- The property-type block: substring match in either direction. -/
def typeBlock (profile : TenantProfile) (listing : Listing) : Int × List String :=
  let property_type := pyLower profile.property_type
  let listing_type := pyLower listing.property_type
  if property_type ≠ "" ∧ listing_type ≠ "" then
    if inStr property_type listing_type ∨ inStr listing_type property_type then
      (15, ["подходящий тип объекта"])
    else (0, [])
  else (0, [])

def petsBlock (profile : TenantProfile) (listing : Listing) : Int × List String :=
  let pets_required := pyLower profile.pets
  if pets_required = "да" ∨ pets_required = "yes" then
    if listing.pets_allowed then (10, ["можно с животными"]) else (-5, [])
  else (0, [])

def parkingBlock (profile : TenantProfile) (listing : Listing) : Int × List String :=
  let parking_required := pyLower profile.parking
  if parking_required = "да" ∨ parking_required = "yes" then
    if listing.parking then (10, ["есть парковка"]) else (-5, [])
  else (0, [])

def freshBlock (listing : Listing) : Int × List String :=
  if listing.verified_at ≠ "" then (5, ["актуальное объявление"]) else (0, [])

/-- Python two-argument `max` on integers. -/
def pyMaxI (a b : Int) : Int := if a < b then b else a

def tenant_match_score (profile : TenantProfile) (listing : Listing) :
    Int × List String :=
  let pr := priceBlock profile listing
  let d := districtBlock profile listing
  let t := typeBlock profile listing
  let pe := petsBlock profile listing
  let pa := parkingBlock profile listing
  let f := freshBlock listing
  (pyMaxI (pr.1 + d.1 + t.1 + pe.1 + pa.1 + f.1) 0,
   pr.2 ++ d.2 ++ t.2 ++ pe.2 ++ pa.2 ++ f.2)

/-! ### `app/hh_jobs.py` -/

def HH_QUERIES : List String :=
  ["руководитель склада", "начальник склада", "менеджер склада",
   "директор по логистике", "руководитель РЦ", "распределительный центр",
   "дистрибуционный центр", "складская логистика", "транспортная логистика",
   "управление запасами", "планирование поставок",
   "специалист по цепям поставок", "supply chain", "WMS", "фулфилмент",
   "кросс-докинг", "комплектация заказов", "начальник смены склад",
   "операционный менеджер склад", "руководитель 3PL", "warehouse manager",
   "head of logistics", "supply chain manager", "distribution center",
   "fulfillment manager", "inventory manager", "cross-dock",
   "operations manager logistics", "transport manager"]

def HH_STRONG_KEYWORDS : List String :=
  ["warehouse", "inventory", "логист", "logistics", "supply chain", "склад",
   "fulfillment", "fulfilment", "wms", "distribution center",
   "распределительный центр", "дистрибуционный центр", "кросс-док",
   "cross-dock", "cold", "pick-pack", "пик-энд-пак"]

def strong_signal_bonus (text : String) : Nat :=
  let normalized := pyLower text
  let bonus := if HH_STRONG_KEYWORDS.any (fun k => inStr k normalized) then 20 else 0
  let bonus := if inStr ("wms") normalized then bonus + 10 else bonus
  let bonus :=
    if inStr ("cross-dock") normalized || inStr ("кросс-док") normalized then
      bonus + 10
    else bonus
  let bonus :=
    if inStr ("fulfillment") normalized || inStr ("фулфилмент") normalized then
      bonus + 10
    else bonus
  let bonus :=
    if inStr ("inventory") normalized || inStr ("запас") normalized then
      bonus + 10
    else bonus
  let bonus :=
    if inStr ("cold") normalized || inStr ("холод") normalized then bonus + 10
    else bonus
  let bonus :=
    if inStr ("pick-pack") normalized || inStr ("пик-энд-пак") normalized then
      bonus + 10
    else bonus
  bonus

/-- A vacancy record, flattening the dictionary fields the pipeline reads
(`None`/missing strings become `""`, the employer and area names are
flattened from their nested dictionaries). -/
structure Vacancy where
  id : String
  name : String
  alternate_url : String
  html_url : String
  employer_name : String
  area_name : String
  snippet_requirement : String
  snippet_responsibility : String
  published_at : String
deriving DecidableEq

/-- The vacancy detail payload; only `key_skills` names are consumed. -/
structure HhDetail where
  key_skills : List String
deriving DecidableEq

structure HhSearchResult where
  items : List Vacancy
  found : Nat
  status_code : Nat
deriving DecidableEq

def vacancy_url (vacancy : Vacancy) : String :=
  if vacancy.alternate_url ≠ "" then vacancy.alternate_url
  else if vacancy.html_url ≠ "" then vacancy.html_url
  else ""

def vacancy_company (vacancy : Vacancy) : String := vacancy.employer_name

def vacancy_city (vacancy : Vacancy) : String := vacancy.area_name

/-- `", ".join(...)` / `" | ".join(...)` / `" — ".join(...)`. -/
def joinSep (sep : String) : List String → String
  | [] => ""
  | [a] => a
  | a :: rest => a ++ sep ++ joinSep sep rest

def vacancy_summary (vacancy : Vacancy) (detail : Option HhDetail) : String :=
  let requirement := vacancy.snippet_requirement
  let responsibility := vacancy.snippet_responsibility
  let skills :=
    match detail with
    | some d => joinSep (", ") (d.key_skills.filter (fun n => n ≠ ""))
    | none => ""
  let parts :=
    ([requirement, responsibility, skills].filter (fun p => p ≠ "")).map
      (fun p => String.mk (pyStrip isPySpace p.data))
  joinSep (" | ") parts

def build_title (name company city : String) : String :=
  joinSep (" — ") ([name, company, city].filter (fun p => p ≠ ""))

/-! ### `app/storage.py`

The SQLite tables become lists.  `seen` is keyed by URL (`PRIMARY KEY`),
`leads.url` carries a `UNIQUE` constraint, and both inserts are
`INSERT OR IGNORE`, so an insert whose key is already present leaves the
table unchanged and reports zero affected rows.  Wall-clock timestamps
(`datetime.utcnow()`) are threaded in as an explicit `now : ℚ` argument. -/

/-- One row of the `leads` table (minus the autoincrement id). -/
structure StoredLead where
  title : String
  url : String
  published : String
  source : String
  summary : String
  demand_score : Nat
  segment : String
  timing : String
  company_guess : String
  created_at : ℚ
deriving DecidableEq

/-- The lead dictionary passed to `save_lead` (no `created_at` yet). -/
structure LeadInput where
  title : String
  url : String
  published : String
  source : String
  summary : String
  demand_score : Nat
  segment : String
  timing : String
  company_guess : String
deriving DecidableEq

structure StorageState where
  seen : List (String × ℚ)
  leads : List StoredLead
  scan_state : List (String × ℚ)
deriving DecidableEq

def is_seen (s : StorageState) (url : String) : Bool :=
  s.seen.any (fun p => p.1 = url)

def mark_seen (s : StorageState) (now : ℚ) (url : String) : StorageState :=
  if is_seen s url then s else { s with seen := s.seen ++ [(url, now)] }

/-- The row stored for a lead dictionary: its fields plus the
`created_at` wall-clock timestamp taken at insertion time. -/
def storedOf (lead : LeadInput) (now : ℚ) : StoredLead :=
  { title := lead.title, url := lead.url, published := lead.published,
    source := lead.source, summary := lead.summary,
    demand_score := lead.demand_score, segment := lead.segment,
    timing := lead.timing, company_guess := lead.company_guess,
    created_at := now }

def save_lead (s : StorageState) (now : ℚ) (lead : LeadInput) :
    StorageState × Bool :=
  if s.leads.any (fun r => r.url = lead.url) then (s, false)
  else ({ s with leads := s.leads ++ [storedOf lead now] }, true)

def get_last_scan (s : StorageState) (name : String) : Option ℚ :=
  (s.scan_state.find? (fun p => p.1 = name)).map (fun p => p.2)

/-- `INSERT ... ON CONFLICT(name) DO UPDATE`: upsert by name. -/
def set_last_scan (s : StorageState) (name : String) (whenRun : ℚ) : StorageState :=
  if s.scan_state.any (fun p => p.1 = name) then
    { s with
        scan_state := s.scan_state.map (fun p => if p.1 = name then (name, whenRun) else p) }
  else { s with scan_state := s.scan_state ++ [(name, whenRun)] }

/-! ### `app/main.py` -/

/-- The configuration knobs `run_radar_once` reads.  HH area identifiers
are modelled as strings (the job-board API serves them as strings; the
`HH_AREAS` fallback integers are rendered as numerals). -/
structure Settings where
  admin_chat_id : Int
  max_items_per_run : Nat
  max_send_per_run : Nat
  jobs_scan_enabled : Bool
  jobs_scan_interval_hours : Int
  hh_areas : List String
  yandex_xml_enabled : Bool
  yandex_serpapi_enabled : Bool
deriving DecidableEq

def is_relevant_lead (title summary : String) : Bool :=
  let text := pyLower (title ++ " " ++ summary)
  if !(["казахстан", "almaty", "алматы", "astana", "астана", "kazakhstan"].any
        (fun k => inStr k text)) then
    false
  else
    let segment := detect_segment title summary
    ["E-COM", "3PL", "FMCG", "Distribution", "Warehouse Real Estate",
     "Auto/Spec Tech", "Cold Chain", "Industrial"].contains segment

/-- An RSS item as produced by `fetch_rss_items` (entries without a link
were already dropped by the adapter; a missing link inside the
orchestrator loop is the empty string). -/
structure RssItem where
  title : String
  url : String
  published : String
  source : String
  summary : String
deriving DecidableEq

/-- A Yandex XML search result (url, title, snippet). -/
structure YandexResult where
  url : String
  title : String
  snippet : String
  published : String
deriving DecidableEq

/-- The mutable run-local variables of `run_radar_once`, plus the storage
and the messages pushed to the notification sink (the sink records which
leads were sent; message formatting is presentation, outside this model). -/
structure RunState where
  storage : StorageState
  collected : Nat
  sent : Nat
  new_leads : Nat
  rss_items : Nat
  rss_seen : Nat
  feeds_ok : Nat
  feeds_failed : Nat
  yandex_items : Nat
  yandex_new : Nat
  yandex_seen : Nat
  hh_items : Nat
  hh_new : Nat
  hh_seen : Nat
  hh_status_code : Nat
  hh_found : Nat
  hh_links : List String
  hh_error : Option String
  hh_skipped_reason : Option String
  errors : List String
  rss_errors : List String
  messages : List LeadInput
deriving DecidableEq

def initRunState (storage : StorageState) : RunState :=
  { storage := storage, collected := 0, sent := 0, new_leads := 0,
    rss_items := 0, rss_seen := 0, feeds_ok := 0, feeds_failed := 0,
    yandex_items := 0, yandex_new := 0, yandex_seen := 0,
    hh_items := 0, hh_new := 0, hh_seen := 0, hh_status_code := 0,
    hh_found := 0, hh_links := [], hh_error := none,
    hh_skipped_reason := none, errors := [], rss_errors := [],
    messages := [] }

/-- One iteration of the RSS item loop.  The `break` on reaching the item
cap is modelled by a per-item guard: `collected` never decreases, so once
the cap is reached every remaining iteration is a no-op, which yields the
same final state as breaking out of the loop. -/
def process_rss_item (settings : Settings) (now : ℚ) (st : RunState)
    (item : RssItem) : RunState :=
  if settings.max_items_per_run ≤ st.collected then st
  else
    let st := { st with collected := st.collected + 1 }
    if item.url = "" then st
    else if is_seen st.storage item.url then
      { st with rss_seen := st.rss_seen + 1 }
    else if !is_relevant_lead item.title item.summary then
      { st with storage := mark_seen st.storage now item.url,
                rss_seen := st.rss_seen + 1 }
    else
      let lead : LeadInput :=
        { title := item.title, url := item.url, published := item.published,
          source := item.source, summary := item.summary,
          demand_score := demand_score item.title item.summary,
          segment := detect_segment item.title item.summary,
          timing := detect_timing item.title item.summary,
          company_guess := guess_company item.title }
      let saveRes := save_lead st.storage now lead
      let st := { st with storage := mark_seen saveRes.1 now item.url }
      if saveRes.2 then
        let st := { st with new_leads := st.new_leads + 1 }
        if 60 ≤ lead.demand_score ∧ st.sent < settings.max_send_per_run then
          { st with messages := st.messages ++ [lead], sent := st.sent + 1 }
        else st
      else st

/-- Outcome of fetching one feed: the parsed items, or the exception text. -/
inductive FetchResult where
  | ok (items : List RssItem)
  | err (msg : String)
deriving DecidableEq

def process_feed (settings : Settings) (now : ℚ) (st : RunState)
    (feed : String × FetchResult) : RunState :=
  match feed.2 with
  | .err msg =>
      { st with feeds_failed := st.feeds_failed + 1,
                rss_errors := st.rss_errors ++ [feed.1 ++ ": " ++ msg] }
  | .ok items =>
      let st := { st with feeds_ok := st.feeds_ok + 1,
                          rss_items := st.rss_items + items.length }
      items.foldl (process_rss_item settings now) st

/-- The feed loop.  After each feed the code breaks out of the loop when
the global item cap has been reached, so later feeds are not fetched and
not counted. -/
def rss_phase (settings : Settings) (now : ℚ) :
    List (String × FetchResult) → RunState → RunState
  | [], st => st
  | feed :: rest, st =>
      let st := process_feed settings now st feed
      if settings.max_items_per_run ≤ st.collected then st
      else rss_phase settings now rest st

/-! #### Yandex web-search phase -/

/-- One iteration of the Yandex XML result loop. -/
def process_yx_item (_settings : Settings) (now : ℚ) (remaining : Nat)
    (st : RunState) (result : YandexResult) : RunState :=
  if remaining ≤ st.yandex_items then st
  else
    let st := { st with yandex_items := st.yandex_items + 1 }
    if is_seen st.storage result.url then
      { st with yandex_seen := st.yandex_seen + 1 }
    else
      let title := result.title
      let summary := result.snippet
      if !is_relevant_lead title summary then
        { st with storage := mark_seen st.storage now result.url,
                  yandex_seen := st.yandex_seen + 1 }
      else
        let lead : LeadInput :=
          { title := title, url := result.url, published := "",
            source := "YandexXML", summary := summary,
            demand_score := demand_score title summary,
            segment := detect_segment title summary,
            timing := detect_timing title summary,
            company_guess := guess_company title }
        let saveRes := save_lead st.storage now lead
        let st := { st with storage := mark_seen saveRes.1 now result.url }
        if saveRes.2 then { st with yandex_new := st.yandex_new + 1 } else st

def scan_yandex_xml (settings : Settings) (now : ℚ)
    (fetched : Except String (List YandexResult)) (remaining : Nat)
    (st : RunState) : RunState :=
  if remaining = 0 then st
  else
    match fetched with
    | .error e =>
        { st with errors := st.errors ++ ["Yandex XML fetch error: " ++ e] }
    | .ok results => results.foldl (process_yx_item settings now remaining) st

/-- One iteration of the Yandex SerpAPI result loop (it additionally guards
against an empty url and carries a published date). -/
def process_serp_item (_settings : Settings) (now : ℚ) (remaining : Nat)
    (st : RunState) (result : YandexResult) : RunState :=
  if remaining ≤ st.yandex_items then st
  else
    let st := { st with yandex_items := st.yandex_items + 1 }
    let url := result.url
    if url = "" then st
    else if is_seen st.storage url then
      { st with yandex_seen := st.yandex_seen + 1 }
    else
      let title := result.title
      let summary := result.snippet
      if !is_relevant_lead title summary then
        { st with storage := mark_seen st.storage now url,
                  yandex_seen := st.yandex_seen + 1 }
      else
        let lead : LeadInput :=
          { title := title, url := url, published := result.published,
            source := "YandexSerpAPI", summary := summary,
            demand_score := demand_score title summary,
            segment := detect_segment title summary,
            timing := detect_timing title summary,
            company_guess := guess_company title }
        let saveRes := save_lead st.storage now lead
        let st := { st with storage := mark_seen saveRes.1 now url }
        if saveRes.2 then { st with yandex_new := st.yandex_new + 1 } else st

def scan_yandex_serpapi (settings : Settings) (now : ℚ)
    (fetched : Except String (List YandexResult)) (remaining : Nat)
    (st : RunState) : RunState :=
  if remaining = 0 then st
  else
    match fetched with
    | .error e =>
        { st with errors := st.errors ++ ["Yandex SerpAPI fetch error: " ++ e] }
    | .ok results => results.foldl (process_serp_item settings now remaining) st

/-! #### Job-board (HH) phase -/

/-- The resolved area identifiers; `kz = ""` models `None`. -/
structure AreaIds where
  kz : String
  almaty : List String
deriving DecidableEq

/-- The external-world oracles the HH scan consults: the cached area-id
resolution, the vacancy search (query × area), and the per-vacancy detail
fetch (keyed by vacancy id). -/
structure HhInputs where
  area_ids : Except String AreaIds
  fetch : String → String → Except String HhSearchResult
  detail : String → Except String (Option HhDetail)

/-- `[vacancy_url(item) for item in vacancies if vacancy_url(item)][:2]` -/
def hhLinks (items : List Vacancy) : List String :=
  ((items.map vacancy_url).filter (fun u => u ≠ "")).take 2

/-- The score assigned to a job-board vacancy: the raw keyword score is
floored at 70, the domain bonus added, and the result clamped to 100. -/
def hhLeadScore (title summary : String) : Nat :=
  min 100 (max 70 (demand_score title summary)
             + strong_signal_bonus (title ++ " " ++ summary))

/-- The lead dictionary built for an accepted vacancy in `scan_hh_jobs`. -/
def mkHhLead (title summary url published company : String) : LeadInput :=
  { title := title, url := url, published := published,
    source := "HeadHunter", summary := summary,
    demand_score := hhLeadScore title summary,
    segment := detect_segment title summary,
    timing := "0–3 мес",
    company_guess := if company ≠ "" then company else guess_company title }

/-- The inner `for area in area_candidates` loop of one query: on a fetch
error record diagnostics and continue; on success overwrite the collected
vacancies and stop as soon as a positive `found` count is reported. -/
def hh_area_loop (fetch : String → String → Except String HhSearchResult)
    (query : String) :
    List String → RunState × List Vacancy × Nat → RunState × List Vacancy × Nat
  | [], acc => acc
  | area :: rest, (st, vacs, found) =>
      match fetch query area with
      | .error e =>
          let st := { st with
            errors := st.errors ++
              ["HH fetch error query=\x27" ++ query ++ "\x27 area=" ++ area ++ ": " ++ e],
            hh_error := some ("fetch error: " ++ e) }
          hh_area_loop fetch query rest (st, vacs, found)
      | .ok result =>
          let st := { st with hh_status_code := result.status_code,
                              hh_found := result.found,
                              hh_links := hhLinks result.items }
          if 0 < result.found then (st, result.items, result.found)
          else hh_area_loop fetch query rest (st, result.items, result.found)

/-- The body of the `for vacancy in vacancies` loop; the `break` on the
item budget is again modelled by a persistent guard. -/
def process_vacancy (settings : Settings) (now : ℚ)
    (detail : String → Except String (Option HhDetail)) (remaining : Nat)
    (st : RunState) (vacancy : Vacancy) : RunState :=
  if remaining ≤ st.hh_items then st
  else
    let st := { st with hh_items := st.hh_items + 1 }
    let url := vacancy_url vacancy
    if url = "" then st
    else if is_seen st.storage url then { st with hh_seen := st.hh_seen + 1 }
    else
      let company := vacancy_company vacancy
      let city := vacancy_city vacancy
      let title := build_title vacancy.name company city
      let detRes :=
        match detail vacancy.id with
        | .ok d => (st, d)
        | .error e =>
            ({ st with
                errors := st.errors ++
                  ["HH vacancy detail error id=" ++ vacancy.id ++ ": " ++ e],
                hh_error := some ("detail error: " ++ e) },
             none)
      let st := detRes.1
      let summary := vacancy_summary vacancy detRes.2
      let lead := mkHhLead title summary url vacancy.published_at company
      let saveRes := save_lead st.storage now lead
      let st := { st with storage := mark_seen saveRes.1 now url }
      if saveRes.2 then
        let st := { st with hh_new := st.hh_new + 1 }
        if 60 ≤ lead.demand_score ∧ st.sent < settings.max_send_per_run then
          { st with messages := st.messages ++ [lead], sent := st.sent + 1 }
        else st
      else st

/-- One query of the HH scan: try the area candidates, fall back to the
country-level id when nothing was found, then process the vacancies. -/
def hh_query_step (settings : Settings) (now : ℚ)
    (fetch : String → String → Except String HhSearchResult)
    (detail : String → Except String (Option HhDetail))
    (kz_id : String) (area_candidates : List String) (remaining : Nat)
    (st : RunState) (query : String) : RunState :=
  if remaining ≤ st.hh_items then st
  else
    let r := hh_area_loop fetch query area_candidates (st, [], 0)
    let st := r.1
    let found_total := r.2.2
    let fb :=
      if found_total = 0 ∧ kz_id ≠ "" then
        match fetch query kz_id with
        | .error e =>
            ({ st with
                errors := st.errors ++
                  ["HH fallback error query=\x27" ++ query ++ "\x27 area=" ++ kz_id ++ ": " ++ e],
                hh_error := some ("fallback error: " ++ e) },
             r.2.1)
        | .ok result =>
            ({ st with hh_status_code := result.status_code,
                       hh_found := result.found,
                       hh_links := hhLinks result.items },
             result.items)
      else (st, r.2.1)
    fb.2.foldl (process_vacancy settings now detail remaining) fb.1

/-- The query loop followed by the unconditional scan-state update at the
end of `scan_hh_jobs`. -/
def hh_queries_run (settings : Settings) (now : ℚ)
    (fetch : String → String → Except String HhSearchResult)
    (detail : String → Except String (Option HhDetail))
    (kz_id : String) (area_candidates : List String) (remaining : Nat)
    (st : RunState) : RunState :=
  let st := HH_QUERIES.foldl
    (hh_query_step settings now fetch detail kz_id area_candidates remaining) st
  { st with storage := set_last_scan st.storage "hh_jobs" now }

/-- The part of `scan_hh_jobs` after the feature and throttle guards: area
resolution (with the `{"kz": None, "almaty": []}` fallback), the
"area not found" early return, and otherwise the query loop. -/
def scan_hh_body (settings : Settings) (now : ℚ) (inputs : HhInputs)
    (remaining : Nat) (st : RunState) : RunState :=
  let ar :=
    match inputs.area_ids with
    | .ok ids => (st, ids)
    | .error e =>
        ({ st with hh_error := some ("area ids error: " ++ e),
                   errors := st.errors ++ ["HH area ids error: " ++ e] },
         { kz := "", almaty := [] })
  let st := ar.1
  let almaty_ids := ar.2.almaty
  let kz_id := ar.2.kz
  let area_candidates := if almaty_ids ≠ [] then almaty_ids else settings.hh_areas
  if area_candidates = [] ∧ kz_id = "" then
    { st with hh_status_code := 0, hh_found := 0, hh_links := [],
              hh_error := some "area not found",
              errors := st.errors ++ ["HH area not found"] }
  else
    hh_queries_run settings now inputs.fetch inputs.detail kz_id
      area_candidates remaining st

def scan_hh_jobs (settings : Settings) (now : ℚ) (inputs : HhInputs)
    (remaining : Nat) (st : RunState) : RunState :=
  if !settings.jobs_scan_enabled then
    { st with hh_status_code := 0, hh_found := 0, hh_links := [],
              hh_error := none }
  else
    match get_last_scan st.storage "hh_jobs" with
    | some last =>
        if (now - last) / 3600 < (settings.jobs_scan_interval_hours : ℚ) then
          let reason := "interval " ++ toString settings.jobs_scan_interval_hours
                          ++ "h not reached"
          { st with hh_skipped_reason := some reason }
        else scan_hh_body settings now inputs remaining st
    | none => scan_hh_body settings now inputs remaining st

/-! #### `run_radar_once` -/

/-- The report dictionary returned by `run_radar_once`. -/
structure Report where
  collected : Nat
  new_leads : Nat
  sent : Nat
  feeds_total : Nat
  feeds_ok : Nat
  feeds_failed : Nat
  rss_items : Nat
  yandex_items : Nat
  yandex_source : String
  hh_items : Nat
  seen : Nat
  hh_status_code : Nat
  hh_found : Nat
  hh_links : List String
  hh_error : Option String
  hh_disabled : Bool
  hh_skipped_reason : Option String
  errors : List String
  rss_errors : List String
deriving DecidableEq

/-- All external-world inputs one run consumes. -/
structure RadarInputs where
  feeds : List (String × FetchResult)
  yandex_xml : Except String (List YandexResult)
  yandex_serpapi : Except String (List YandexResult)
  hh : HhInputs

def run_radar_once (settings : Settings) (now : ℚ) (storage0 : StorageState)
    (inp : RadarInputs) : RunState × Report :=
  let st := rss_phase settings now inp.feeds (initRunState storage0)
  let remaining := settings.max_items_per_run - st.collected
  let ya :=
    if 0 < remaining then
      if settings.yandex_xml_enabled then
        let yst := scan_yandex_xml settings now inp.yandex_xml remaining st
        ({ yst with collected := yst.collected + yst.yandex_items,
                    new_leads := yst.new_leads + yst.yandex_new },
         "YandexXML")
      else if settings.yandex_serpapi_enabled then
        let yst := scan_yandex_serpapi settings now inp.yandex_serpapi remaining st
        ({ yst with collected := yst.collected + yst.yandex_items,
                    new_leads := yst.new_leads + yst.yandex_new },
         "YandexSerpAPI")
      else (st, "disabled")
    else (st, "disabled")
  let st := ya.1
  let remaining2 := settings.max_items_per_run - st.collected
  let st :=
    if 0 < remaining2 then
      let hst := scan_hh_jobs settings now inp.hh remaining2 st
      { hst with collected := hst.collected + hst.hh_items,
                 new_leads := hst.new_leads + hst.hh_new }
    else { st with hh_skipped_reason := some "limit reached by RSS/Yandex" }
  (st,
   { collected := st.collected, new_leads := st.new_leads, sent := st.sent,
     feeds_total := inp.feeds.length, feeds_ok := st.feeds_ok,
     feeds_failed := st.feeds_failed, rss_items := st.rss_items,
     yandex_items := st.yandex_items, yandex_source := ya.2,
     hh_items := st.hh_items,
     seen := st.rss_seen + st.yandex_seen + st.hh_seen,
     hh_status_code := st.hh_status_code, hh_found := st.hh_found,
     hh_links := st.hh_links, hh_error := st.hh_error,
     hh_disabled := !settings.jobs_scan_enabled,
     hh_skipped_reason := st.hh_skipped_reason,
     errors := st.errors, rss_errors := st.rss_errors })

/-- Modelled from the spec: the near-budget test as the spec's words read —
"within 10% of the nearer bound": the distance from the listing price to
the nearer budget bound is at most one tenth of that nearer bound.  For
comparison with `priceBlock`, whose threshold is one tenth of
`budget_max` (floored at 1). -/
def nearBudgetSpec (bmin bmax price : ℚ) : Bool :=
  pyMin (pyAbs (price - bmin)) (pyAbs (price - bmax)) ≤
    (if pyAbs (price - bmin) ≤ pyAbs (price - bmax) then bmin else bmax) * (1 / 10)

/-- The area-id record `scan_hh_jobs` works with: the resolved ids on
success, the `{"kz": None, "almaty": []}` fallback when the cached area
resolution raised. -/
def resolvedAreaIds (inputs : HhInputs) : AreaIds :=
  match inputs.area_ids with
  | .ok ids => ids
  | .error _ => { kz := "", almaty := [] }

/-! ### Concrete fixtures used to instantiate the theorems below -/

def emptyStorage : StorageState := { seen := [], leads := [], scan_state := [] }

/-- A configuration with both web-search providers and the job-board scan
disabled. -/
def fixSettings : Settings :=
  { admin_chat_id := 1, max_items_per_run := 50, max_send_per_run := 10,
    jobs_scan_enabled := false, jobs_scan_interval_hours := 6,
    hh_areas := [], yandex_xml_enabled := false,
    yandex_serpapi_enabled := false }

/-- A configuration with the job-board scan enabled. -/
def fixSettingsHh : Settings :=
  { fixSettings with jobs_scan_enabled := true, hh_areas := ["159"] }

def fixVacancy : Vacancy :=
  { id := "1", name := "x", alternate_url := "u1", html_url := "",
    employer_name := "", area_name := "", snippet_requirement := "",
    snippet_responsibility := "", published_at := "" }

/-- Oracles: area resolution succeeds with one Almaty id, every search
returns a single vacancy, the detail fetch returns no enrichment. -/
def fixHhInputs : HhInputs :=
  { area_ids := .ok { kz := "", almaty := ["159"] },
    fetch := fun _ _ => .ok { items := [fixVacancy], found := 1, status_code := 200 },
    detail := fun _ => .ok none }

/-- Oracles: area resolution yields nothing and every fetch fails. -/
def fixHhInputsDown : HhInputs :=
  { area_ids := .ok { kz := "", almaty := [] },
    fetch := fun _ _ => .error "down",
    detail := fun _ => .error "down" }

/-- Oracles: areas resolve but every fetch fails. -/
def fixHhInputsErr : HhInputs :=
  { area_ids := .ok { kz := "", almaty := ["159"] },
    fetch := fun _ _ => .error "timeout",
    detail := fun _ => .error "timeout" }

/-- A storage that has already seen the url `u5`. -/
def fixSeenStorage : StorageState :=
  { seen := [("u5", 0)], leads := [], scan_state := [] }

/-- An item carrying a regional keyword and a Warehouse Real Estate
segment keyword, hence passing the relevance filter. -/
def fixItemRel : RssItem :=
  { title := "аренда склада алматы", url := "u9", published := "",
    source := "S", summary := "" }

/-- The lead dictionary the RSS loop builds for `fixItemRel`. -/
def fixLeadRel : LeadInput :=
  { title := fixItemRel.title, url := fixItemRel.url,
    published := fixItemRel.published, source := fixItemRel.source,
    summary := fixItemRel.summary,
    demand_score := demand_score fixItemRel.title fixItemRel.summary,
    segment := detect_segment fixItemRel.title fixItemRel.summary,
    timing := detect_timing fixItemRel.title fixItemRel.summary,
    company_guess := guess_company fixItemRel.title }

/-- The lead dictionary the job-board loop builds for `fixVacancy`. -/
def fixHhLead : LeadInput := mkHhLead ("x") ("") ("u1") ("") ("")

/-- A storage that has already seen the urls of `fixItemB` and
`fixItemC`. -/
def fixStorage6 : StorageState :=
  { seen := [("ub", 0), ("uc", 0)], leads := [], scan_state := [] }

def fixItemB : RssItem :=
  { title := "x", url := "ub", published := "", source := "S", summary := "" }

def fixItemC : RssItem :=
  { title := "x", url := "uc", published := "", source := "S", summary := "" }

/-- One reachable feed with three items (one new and relevant, two already
seen) and one feed failing with a timeout. -/
def fixInp6 : RadarInputs :=
  { feeds := [("f1", .ok [fixItemRel, fixItemB, fixItemC]),
              ("f2", .err "timeout")],
    yandex_xml := .error "unused", yandex_serpapi := .error "unused",
    hh := fixHhInputsDown }

/-- An item without any regional keyword whose url is `u5`. -/
def fixItemSeen : RssItem :=
  { title := "t", url := "u5", published := "", source := "S", summary := "" }

/-! ## Theorems -/

theorem pyAbs_eq_abs (q : ℚ) : pyAbs q = |q| := by
  unfold pyAbs
  rcases lt_or_ge q 0 with h | h
  · rw [if_pos h, abs_of_neg h]
  · rw [if_neg (not_lt.mpr h), abs_of_nonneg h]

theorem pyMin_eq_min (a b : ℚ) : pyMin a b = min a b := by
  unfold pyMin
  rcases lt_or_ge b a with h | h
  · rw [if_pos h, min_eq_right h.le]
  · rw [if_neg (not_lt.mpr h), min_eq_left h]

theorem pyMax_eq_max (a b : ℚ) : pyMax a b = max a b := by
  unfold pyMax
  rcases lt_or_ge a b with h | h
  · rw [if_pos h, max_eq_right h.le]
  · rw [if_neg (not_lt.mpr h), max_eq_left h]

theorem pyMaxI_eq_max (a b : Int) : pyMaxI a b = max a b := by
  unfold pyMaxI
  rcases lt_or_ge a b with h | h
  · rw [if_pos h, max_eq_right h.le]
  · rw [if_neg (not_lt.mpr h), max_eq_left h]

/-! ### Claim C1 -/

/-- Claim C1: for every pair of input strings (title, summary),
`demand_score` returns an integer in [5, 100] inclusive: a total of
exactly 0 after all additions is floored to 5, and the final value is
clamped to 100. -/
theorem claim1_demand_score_range (title summary : String) :
    5 ≤ demand_score title summary ∧ demand_score title summary ≤ 100 := by
  unfold demand_score
  dsimp only
  split_ifs <;> omega

/-! ### Claim C4 -/

/-- Claim C4: inserting a second lead with the same url is a no-op that
returns `false` (not newly inserted), leaves the storage unchanged, and
the two calls together add at most one record with that url. -/
theorem claim4_save_lead_idempotent (s : StorageState) (now1 now2 : ℚ)
    (l1 l2 : LeadInput) (h : l1.url = l2.url) :
    (save_lead (save_lead s now1 l1).1 now2 l2).2 = false ∧
    (save_lead (save_lead s now1 l1).1 now2 l2).1 = (save_lead s now1 l1).1 ∧
    List.countP (fun r => r.url = l1.url)
        ((save_lead (save_lead s now1 l1).1 now2 l2).1.leads)
      ≤ List.countP (fun r => r.url = l1.url) s.leads + 1 := by
  unfold save_lead
  by_cases h1 : s.leads.any (fun r => r.url = l1.url) = true
  · rw [if_pos h1]
    dsimp only
    rw [if_pos (h ▸ h1)]
    refine ⟨rfl, rfl, ?_⟩
    dsimp only
    omega
  · rw [if_neg h1]
    dsimp only
    have h2 : ((s.leads ++ [storedOf l1 now1]).any (fun r => r.url = l2.url)) = true := by
      simp [List.any_append, storedOf, h]
    rw [if_pos h2]
    refine ⟨rfl, rfl, ?_⟩
    rw [List.countP_append]
    have : List.countP (fun r => r.url = l1.url) [storedOf l1 now1] ≤ 1 := by
      simp [List.countP_cons, storedOf]
    omega

/-- Witness for C4 at a concrete storage and lead. -/
theorem claim4_witness :
    (save_lead
        (save_lead { seen := [], leads := [], scan_state := [] } 0
          { title := "t", url := "u", published := "", source := "S",
            summary := "", demand_score := 50, segment := "Other",
            timing := "3–12 мес", company_guess := "t" }).1 1
        { title := "t2", url := "u", published := "", source := "S",
          summary := "", demand_score := 60, segment := "Other",
          timing := "3–12 мес", company_guess := "t2" }).2 = false ∧
    (save_lead
        (save_lead { seen := [], leads := [], scan_state := [] } 0
          { title := "t", url := "u", published := "", source := "S",
            summary := "", demand_score := 50, segment := "Other",
            timing := "3–12 мес", company_guess := "t" }).1 1
        { title := "t2", url := "u", published := "", source := "S",
          summary := "", demand_score := 60, segment := "Other",
          timing := "3–12 мес", company_guess := "t2" }).1 =
      (save_lead { seen := [], leads := [], scan_state := [] } 0
        { title := "t", url := "u", published := "", source := "S",
          summary := "", demand_score := 50, segment := "Other",
          timing := "3–12 мес", company_guess := "t" }).1 ∧
    List.countP (fun r => r.url = "u")
        ((save_lead
            (save_lead { seen := [], leads := [], scan_state := [] } 0
              { title := "t", url := "u", published := "", source := "S",
                summary := "", demand_score := 50, segment := "Other",
                timing := "3–12 мес", company_guess := "t" }).1 1
            { title := "t2", url := "u", published := "", source := "S",
              summary := "", demand_score := 60, segment := "Other",
              timing := "3–12 мес", company_guess := "t2" }).1.leads)
      ≤ List.countP (fun r => r.url = "u")
          ({ seen := [], leads := [], scan_state := [] } : StorageState).leads + 1 :=
  claim4_save_lead_idempotent { seen := [], leads := [], scan_state := [] } 0 1
    { title := "t", url := "u", published := "", source := "S",
      summary := "", demand_score := 50, segment := "Other",
      timing := "3–12 мес", company_guess := "t" }
    { title := "t2", url := "u", published := "", source := "S",
      summary := "", demand_score := 60, segment := "Other",
      timing := "3–12 мес", company_guess := "t2" } rfl

/-! ### Claim C7 -/

/-- Counterexample to claim C7: the listing district is a substring of the
profile district (an "either direction" match), yet no district points and
no district reason are awarded — the code only tests the profile district
inside the listing district. -/
theorem claim7_counterexample :
    inStr (pyLower ("a")) (pyLower ("ab")) = true ∧
    tenant_match_score
      { budget_min := none, budget_max := none, district := "ab",
        property_type := "", pets := "", parking := "" }
      { price := none, district := "a", property_type := "",
        pets_allowed := false, parking := false, verified_at := "" }
      = (0, []) := by
  decide

/-- Claim C7 (amended): for non-empty district fields the matcher adds
exactly +25 with the district reason if and only if the lowered profile
district equals, or occurs as a substring of, the lowered listing district
— one direction only; otherwise no district points are added.  The second
conjunct grounds the block decomposition in `tenant_match_score` itself. -/
theorem claim7_district_one_direction (profile : TenantProfile) (listing : Listing)
    (h1 : pyLower profile.district ≠ "") (h2 : pyLower listing.district ≠ "") :
    (districtBlock profile listing =
      if pyLower profile.district = pyLower listing.district ∨
         inStr (pyLower profile.district) (pyLower listing.district) = true
      then (25, ["нужный район"]) else (0, [])) ∧
    tenant_match_score profile listing =
      (pyMaxI ((priceBlock profile listing).1 + (districtBlock profile listing).1 +
          (typeBlock profile listing).1 + (petsBlock profile listing).1 +
          (parkingBlock profile listing).1 + (freshBlock listing).1) 0,
       (priceBlock profile listing).2 ++ (districtBlock profile listing).2 ++
         (typeBlock profile listing).2 ++ (petsBlock profile listing).2 ++
         (parkingBlock profile listing).2 ++ (freshBlock listing).2) := by
  constructor
  · unfold districtBlock
    dsimp only
    rw [if_pos ⟨h1, h2⟩]
  · rfl

/-- Witness for the amended C7 at concrete districts (match case). -/
theorem claim7_witness :
    (districtBlock
        { budget_min := none, budget_max := none, district := "ab",
          property_type := "", pets := "", parking := "" }
        { price := none, district := "abc", property_type := "",
          pets_allowed := false, parking := false, verified_at := "" } =
      if pyLower ("ab") = pyLower ("abc") ∨
         inStr (pyLower ("ab")) (pyLower ("abc")) = true
      then (25, ["нужный район"]) else (0, [])) ∧
    tenant_match_score
        { budget_min := none, budget_max := none, district := "ab",
          property_type := "", pets := "", parking := "" }
        { price := none, district := "abc", property_type := "",
          pets_allowed := false, parking := false, verified_at := "" } =
      (pyMaxI
          ((priceBlock
              { budget_min := none, budget_max := none, district := "ab",
                property_type := "", pets := "", parking := "" }
              { price := none, district := "abc", property_type := "",
                pets_allowed := false, parking := false, verified_at := "" }).1 +
            (districtBlock
              { budget_min := none, budget_max := none, district := "ab",
                property_type := "", pets := "", parking := "" }
              { price := none, district := "abc", property_type := "",
                pets_allowed := false, parking := false, verified_at := "" }).1 +
            (typeBlock
              { budget_min := none, budget_max := none, district := "ab",
                property_type := "", pets := "", parking := "" }
              { price := none, district := "abc", property_type := "",
                pets_allowed := false, parking := false, verified_at := "" }).1 +
            (petsBlock
              { budget_min := none, budget_max := none, district := "ab",
                property_type := "", pets := "", parking := "" }
              { price := none, district := "abc", property_type := "",
                pets_allowed := false, parking := false, verified_at := "" }).1 +
            (parkingBlock
              { budget_min := none, budget_max := none, district := "ab",
                property_type := "", pets := "", parking := "" }
              { price := none, district := "abc", property_type := "",
                pets_allowed := false, parking := false, verified_at := "" }).1 +
            (freshBlock
              { price := none, district := "abc", property_type := "",
                pets_allowed := false, parking := false, verified_at := "" }).1) 0,
       (priceBlock
          { budget_min := none, budget_max := none, district := "ab",
            property_type := "", pets := "", parking := "" }
          { price := none, district := "abc", property_type := "",
            pets_allowed := false, parking := false, verified_at := "" }).2 ++
        (districtBlock
          { budget_min := none, budget_max := none, district := "ab",
            property_type := "", pets := "", parking := "" }
          { price := none, district := "abc", property_type := "",
            pets_allowed := false, parking := false, verified_at := "" }).2 ++
        (typeBlock
          { budget_min := none, budget_max := none, district := "ab",
            property_type := "", pets := "", parking := "" }
          { price := none, district := "abc", property_type := "",
            pets_allowed := false, parking := false, verified_at := "" }).2 ++
        (petsBlock
          { budget_min := none, budget_max := none, district := "ab",
            property_type := "", pets := "", parking := "" }
          { price := none, district := "abc", property_type := "",
            pets_allowed := false, parking := false, verified_at := "" }).2 ++
        (parkingBlock
          { budget_min := none, budget_max := none, district := "ab",
            property_type := "", pets := "", parking := "" }
          { price := none, district := "abc", property_type := "",
            pets_allowed := false, parking := false, verified_at := "" }).2 ++
        (freshBlock
          { price := none, district := "abc", property_type := "",
            pets_allowed := false, parking := false, verified_at := "" }).2) :=
  claim7_district_one_direction
    { budget_min := none, budget_max := none, district := "ab",
      property_type := "", pets := "", parking := "" }
    { price := none, district := "abc", property_type := "",
      pets_allowed := false, parking := false, verified_at := "" }
    (by decide) (by decide)

/-! ### Claim C8 -/

/-- Counterexample to claim C8: the listing price 5 lies outside the
budget [10, 1000] and is not within 10% of the nearer bound (10), yet the
matcher still awards +15 — the code's threshold is 10% of `budget_max`,
not of the nearer bound. -/
theorem claim8_counterexample :
    (¬ ((10 : ℚ) ≤ 5 ∧ (5 : ℚ) ≤ 1000)) ∧
    nearBudgetSpec 10 1000 5 = false ∧
    tenant_match_score
      { budget_min := some 10, budget_max := some 1000, district := "",
        property_type := "", pets := "", parking := "" }
      { price := some 5, district := "", property_type := "",
        pets_allowed := false, parking := false, verified_at := "" }
      = (15, ["почти в бюджете"]) := by
  refine ⟨by norm_num, ?_, ?_⟩
  · norm_num [nearBudgetSpec, pyMin, pyAbs]
  · have hpb : priceBlock
        { budget_min := some 10, budget_max := some 1000, district := "",
          property_type := "", pets := "", parking := "" }
        { price := some 5, district := "", property_type := "",
          pets_allowed := false, parking := false, verified_at := "" }
        = (15, ["почти в бюджете"]) := by
      norm_num [priceBlock, pyMin, pyAbs, pyMax]
    unfold tenant_match_score
    rw [hpb]
    decide

/-- Claim C8 (amended): with both budget bounds present and the price
outside [budget_min, budget_max], the near-budget branch awards +15 with
its reason if and only if the distance to the nearer bound is at most
max(1, budget_max·0.1) (budget_min·0.1 when budget_max = 0) — not 10% of
the nearer bound; the in-budget and near-budget branches stay mutually
exclusive and the price block contributes at most one reason. -/
theorem claim8_near_budget_threshold (profile : TenantProfile)
    (listing : Listing) (bmin bmax price : ℚ)
    (hmin : profile.budget_min = some bmin)
    (hmax : profile.budget_max = some bmax)
    (hp : listing.price = some price)
    (hout : ¬ (bmin ≤ price ∧ price ≤ bmax)) :
    (priceBlock profile listing =
      if pyMin (pyAbs (price - bmin)) (pyAbs (price - bmax)) ≤
           pyMax 1 ((if bmax ≠ 0 then bmax else bmin) * (1 / 10))
      then (15, ["почти в бюджете"]) else (0, [])) ∧
    (priceBlock profile listing).2.length ≤ 1 ∧
    tenant_match_score profile listing =
      (pyMaxI ((priceBlock profile listing).1 + (districtBlock profile listing).1 +
          (typeBlock profile listing).1 + (petsBlock profile listing).1 +
          (parkingBlock profile listing).1 + (freshBlock listing).1) 0,
       (priceBlock profile listing).2 ++ (districtBlock profile listing).2 ++
         (typeBlock profile listing).2 ++ (petsBlock profile listing).2 ++
         (parkingBlock profile listing).2 ++ (freshBlock listing).2) := by
  have hpb : priceBlock profile listing =
      if pyMin (pyAbs (price - bmin)) (pyAbs (price - bmax)) ≤
           pyMax 1 ((if bmax ≠ 0 then bmax else bmin) * (1 / 10))
      then (15, ["почти в бюджете"]) else (0, []) := by
    unfold priceBlock
    rw [hp, hmin, hmax]
    dsimp only
    rw [if_neg hout]
  refine ⟨hpb, ?_, rfl⟩
  rw [hpb]
  split_ifs <;> simp

/-- Witness for the amended C8 at budget [10, 1000] and price 5. -/
theorem claim8_witness :
    (priceBlock
        { budget_min := some 10, budget_max := some 1000, district := "",
          property_type := "", pets := "", parking := "" }
        { price := some 5, district := "", property_type := "",
          pets_allowed := false, parking := false, verified_at := "" } =
      if pyMin (pyAbs ((5 : ℚ) - 10)) (pyAbs ((5 : ℚ) - 1000)) ≤
           pyMax 1 ((if (1000 : ℚ) ≠ 0 then (1000 : ℚ) else 10) * (1 / 10))
      then (15, ["почти в бюджете"]) else (0, [])) ∧
    (priceBlock
        { budget_min := some 10, budget_max := some 1000, district := "",
          property_type := "", pets := "", parking := "" }
        { price := some 5, district := "", property_type := "",
          pets_allowed := false, parking := false, verified_at := "" }).2.length ≤ 1 ∧
    tenant_match_score
        { budget_min := some 10, budget_max := some 1000, district := "",
          property_type := "", pets := "", parking := "" }
        { price := some 5, district := "", property_type := "",
          pets_allowed := false, parking := false, verified_at := "" } =
      (pyMaxI
          ((priceBlock
              { budget_min := some 10, budget_max := some 1000, district := "",
                property_type := "", pets := "", parking := "" }
              { price := some 5, district := "", property_type := "",
                pets_allowed := false, parking := false, verified_at := "" }).1 +
            (districtBlock
              { budget_min := some 10, budget_max := some 1000, district := "",
                property_type := "", pets := "", parking := "" }
              { price := some 5, district := "", property_type := "",
                pets_allowed := false, parking := false, verified_at := "" }).1 +
            (typeBlock
              { budget_min := some 10, budget_max := some 1000, district := "",
                property_type := "", pets := "", parking := "" }
              { price := some 5, district := "", property_type := "",
                pets_allowed := false, parking := false, verified_at := "" }).1 +
            (petsBlock
              { budget_min := some 10, budget_max := some 1000, district := "",
                property_type := "", pets := "", parking := "" }
              { price := some 5, district := "", property_type := "",
                pets_allowed := false, parking := false, verified_at := "" }).1 +
            (parkingBlock
              { budget_min := some 10, budget_max := some 1000, district := "",
                property_type := "", pets := "", parking := "" }
              { price := some 5, district := "", property_type := "",
                pets_allowed := false, parking := false, verified_at := "" }).1 +
            (freshBlock
              { price := some 5, district := "", property_type := "",
                pets_allowed := false, parking := false, verified_at := "" }).1) 0,
       (priceBlock
          { budget_min := some 10, budget_max := some 1000, district := "",
            property_type := "", pets := "", parking := "" }
          { price := some 5, district := "", property_type := "",
            pets_allowed := false, parking := false, verified_at := "" }).2 ++
        (districtBlock
          { budget_min := some 10, budget_max := some 1000, district := "",
            property_type := "", pets := "", parking := "" }
          { price := some 5, district := "", property_type := "",
            pets_allowed := false, parking := false, verified_at := "" }).2 ++
        (typeBlock
          { budget_min := some 10, budget_max := some 1000, district := "",
            property_type := "", pets := "", parking := "" }
          { price := some 5, district := "", property_type := "",
            pets_allowed := false, parking := false, verified_at := "" }).2 ++
        (petsBlock
          { budget_min := some 10, budget_max := some 1000, district := "",
            property_type := "", pets := "", parking := "" }
          { price := some 5, district := "", property_type := "",
            pets_allowed := false, parking := false, verified_at := "" }).2 ++
        (parkingBlock
          { budget_min := some 10, budget_max := some 1000, district := "",
            property_type := "", pets := "", parking := "" }
          { price := some 5, district := "", property_type := "",
            pets_allowed := false, parking := false, verified_at := "" }).2 ++
        (freshBlock
          { price := some 5, district := "", property_type := "",
            pets_allowed := false, parking := false, verified_at := "" }).2) :=
  claim8_near_budget_threshold
    { budget_min := some 10, budget_max := some 1000, district := "",
      property_type := "", pets := "", parking := "" }
    { price := some 5, district := "", property_type := "",
      pets_allowed := false, parking := false, verified_at := "" }
    10 1000 5 rfl rfl rfl (by norm_num)

/-! ### Claim C3 -/

/-- Counterexample to claim C3: an item classified `Auto/Spec Tech` (with a
regional keyword) passes the relevance filter — the hardcoded allow-list
includes `Auto/Spec Tech`, contrary to the claim. -/
theorem claim3_counterexample :
    detect_segment ("алматы погрузчик") ("") = "Auto/Spec Tech" ∧
    is_relevant_lead ("алматы погрузчик") ("") = true := by
  decide

/-- Claim C3 (amended): the relevance filter rejects items classified
`Other`, but `Auto/Spec Tech` is in the allow-list, so for such items the
filter reduces to the regional-keyword test alone. -/
theorem claim3_segment_allowlist (title summary : String) :
    (detect_segment title summary = "Other" →
      is_relevant_lead title summary = false) ∧
    (detect_segment title summary = "Auto/Spec Tech" →
      is_relevant_lead title summary =
        (["казахстан", "almaty", "алматы", "astana", "астана", "kazakhstan"].any
          (fun k => inStr k (pyLower (title ++ " " ++ summary))))) := by
  constructor
  · intro h
    unfold is_relevant_lead
    dsimp only
    rw [h]
    have hc : (["E-COM", "3PL", "FMCG", "Distribution", "Warehouse Real Estate",
        "Auto/Spec Tech", "Cold Chain", "Industrial"].contains ("Other")) = false := by
      decide
    rw [hc]
    split <;> rfl
  · intro h
    unfold is_relevant_lead
    dsimp only
    rw [h]
    have hc : (["E-COM", "3PL", "FMCG", "Distribution", "Warehouse Real Estate",
        "Auto/Spec Tech", "Cold Chain", "Industrial"].contains ("Auto/Spec Tech")) = true := by
      decide
    rw [hc]
    cases hr : (["казахстан", "almaty", "алматы", "astana", "астана", "kazakhstan"].any
        (fun k => inStr k (pyLower (title ++ " " ++ summary)))) <;>
      simp [hr]

/-- Witness for the amended C3: a concrete `Other` item is rejected and a
concrete `Auto/Spec Tech` item reduces to the regional test. -/
theorem claim3_witness :
    is_relevant_lead ("hello almaty") ("") = false ∧
    is_relevant_lead ("погрузчик алматы") ("") =
      (["казахстан", "almaty", "алматы", "astana", "астана", "kazakhstan"].any
        (fun k => inStr k (pyLower ("погрузчик алматы" ++ " " ++ "")))) :=
  ⟨(claim3_segment_allowlist ("hello almaty") ("")).1 (by decide),
   (claim3_segment_allowlist ("погрузчик алматы") ("")).2 (by decide)⟩

/-! ### Storage lemmas -/

theorem mark_seen_leads (s : StorageState) (now : ℚ) (url : String) :
    (mark_seen s now url).leads = s.leads := by
  unfold mark_seen
  split <;> rfl

theorem mark_seen_scan_state (s : StorageState) (now : ℚ) (url : String) :
    (mark_seen s now url).scan_state = s.scan_state := by
  unfold mark_seen
  split <;> rfl

theorem save_lead_scan_state (s : StorageState) (now : ℚ) (lead : LeadInput) :
    ((save_lead s now lead).1).scan_state = s.scan_state := by
  unfold save_lead
  split <;> rfl

theorem save_lead_seen (s : StorageState) (now : ℚ) (lead : LeadInput) :
    ((save_lead s now lead).1).seen = s.seen := by
  unfold save_lead
  split <;> rfl

theorem is_seen_mark_seen_self (s : StorageState) (now : ℚ) (url : String) :
    is_seen (mark_seen s now url) url = true := by
  unfold mark_seen
  by_cases h : is_seen s url = true
  · rw [if_pos h]
    exact h
  · rw [if_neg h]
    unfold is_seen
    simp [List.any_append]

theorem is_seen_mark_seen_mono (s : StorageState) (now : ℚ) (url u : String)
    (h : is_seen s u = true) :
    is_seen (mark_seen s now url) u = true := by
  unfold mark_seen
  by_cases h0 : is_seen s url = true
  · rw [if_pos h0]
    exact h
  · rw [if_neg h0]
    unfold is_seen at h ⊢
    simp only [List.any_append, h, Bool.true_or]

theorem is_seen_save_lead (s : StorageState) (now : ℚ) (lead : LeadInput)
    (u : String) :
    is_seen ((save_lead s now lead).1) u = is_seen s u := by
  unfold save_lead
  split <;> rfl

theorem save_lead_mem (s : StorageState) (now : ℚ) (lead : LeadInput)
    (r : StoredLead) (h : r ∈ ((save_lead s now lead).1).leads) :
    r ∈ s.leads ∨ r = storedOf lead now := by
  unfold save_lead at h
  by_cases h1 : s.leads.any (fun x => x.url = lead.url) = true
  · rw [if_pos h1] at h
    exact Or.inl h
  · rw [if_neg h1] at h
    dsimp only at h
    rcases List.mem_append.mp h with h2 | h2
    · exact Or.inl h2
    · exact Or.inr (List.mem_singleton.mp h2)

/-! ### Claim C5 -/

/-- Claim C5: inside the RSS item loop (item processed: cap not reached,
url present) — (i) an item lacking every regional keyword adds no lead and
its url ends up marked seen; (ii) an item whose url is already seen is
dismissed at the seen-check: the only effect is bumping `collected` and
`rss_seen`, independently of title/summary, so its text is never
relevance-checked or scored again; (iii) after processing, the url is
always in the seen set, so later runs skip it at the seen-check. -/
theorem claim5_seen_before_relevance (settings : Settings) (now : ℚ)
    (st : RunState) (item : RssItem)
    (hcap : st.collected < settings.max_items_per_run)
    (hurl : item.url ≠ "") :
    ((["казахстан", "almaty", "алматы", "astana", "астана", "kazakhstan"].any
        (fun k => inStr k (pyLower (item.title ++ " " ++ item.summary)))) = false →
      (process_rss_item settings now st item).storage.leads = st.storage.leads ∧
      is_seen (process_rss_item settings now st item).storage item.url = true) ∧
    (is_seen st.storage item.url = true →
      process_rss_item settings now st item =
        { st with collected := st.collected + 1, rss_seen := st.rss_seen + 1 }) ∧
    is_seen (process_rss_item settings now st item).storage item.url = true := by
  have hrel : (["казахстан", "almaty", "алматы", "astana", "астана",
        "kazakhstan"].any
        (fun k => inStr k (pyLower (item.title ++ " " ++ item.summary)))) = false →
      is_relevant_lead item.title item.summary = false := by
    intro h
    unfold is_relevant_lead
    dsimp only
    rw [h]
    rfl
  unfold process_rss_item
  rw [if_neg (by omega : ¬ settings.max_items_per_run ≤ st.collected)]
  dsimp only
  rw [if_neg hurl]
  by_cases hseen : is_seen st.storage item.url = true
  · rw [if_pos hseen]
    exact ⟨fun _ => ⟨rfl, hseen⟩, fun _ => rfl, hseen⟩
  · rw [if_neg hseen]
    by_cases hr : is_relevant_lead item.title item.summary = true
    · rw [hr]
      rw [if_neg (by decide : ¬ ((!true) = true))]
      have hms : ∀ s2 : StorageState,
          is_seen (mark_seen s2 now item.url) item.url = true :=
        fun s2 => is_seen_mark_seen_self s2 now item.url
      constructor
      · intro h
        exact absurd hr (by rw [hrel h]; exact Bool.false_ne_true)
      constructor
      · intro h
        exact absurd h hseen
      · split
        · split
          · exact hms _
          · exact hms _
        · exact hms _
    · rw [Bool.not_eq_true] at hr
      rw [hr]
      rw [if_pos (by decide : (!false) = true)]
      refine ⟨fun _ => ⟨mark_seen_leads st.storage now item.url, ?_⟩,
        fun h => absurd h hseen, ?_⟩
      · exact is_seen_mark_seen_self st.storage now item.url
      · exact is_seen_mark_seen_self st.storage now item.url

/-- Witness for C5: an already-seen url with no regional keyword is
skipped with only the two counters bumped. -/
theorem claim5_witness :
    ((["казахстан", "almaty", "алматы", "astana", "астана", "kazakhstan"].any
        (fun k => inStr k (pyLower (fixItemSeen.title ++ " " ++ fixItemSeen.summary)))) = false →
      (process_rss_item fixSettings 0 (initRunState fixSeenStorage)
          fixItemSeen).storage.leads =
        (initRunState fixSeenStorage).storage.leads ∧
      is_seen (process_rss_item fixSettings 0 (initRunState fixSeenStorage)
          fixItemSeen).storage fixItemSeen.url = true) ∧
    (is_seen (initRunState fixSeenStorage).storage fixItemSeen.url = true →
      process_rss_item fixSettings 0 (initRunState fixSeenStorage) fixItemSeen =
        { initRunState fixSeenStorage with
            collected := (initRunState fixSeenStorage).collected + 1,
            rss_seen := (initRunState fixSeenStorage).rss_seen + 1 }) ∧
    is_seen (process_rss_item fixSettings 0 (initRunState fixSeenStorage)
        fixItemSeen).storage fixItemSeen.url = true :=
  claim5_seen_before_relevance fixSettings 0 (initRunState fixSeenStorage)
    fixItemSeen (by decide) (by decide)

/-! ### Claim C9 -/

theorem find_upsert (l : List (String × ℚ)) (name : String) (t : ℚ)
    (h : l.any (fun p => p.1 = name) = true) :
    (l.map (fun p => if p.1 = name then (name, t) else p)).find?
      (fun p => p.1 = name) = some (name, t) := by
  induction l with
  | nil => simp at h
  | cons p rest ih =>
    rw [List.map_cons]
    by_cases hp : p.1 = name
    · rw [if_pos hp]
      rw [List.find?_cons_of_pos]
      simp
    · rw [if_neg hp]
      rw [List.find?_cons_of_neg]
      · apply ih
        simpa [List.any_cons, hp] using h
      · simp [hp]

theorem find_append_new (l : List (String × ℚ)) (name : String) (t : ℚ)
    (h : l.any (fun p => p.1 = name) = false) :
    (l ++ [(name, t)]).find? (fun p => p.1 = name) = some (name, t) := by
  induction l with
  | nil =>
    rw [List.nil_append]
    rw [List.find?_cons_of_pos]
    simp
  | cons p rest ih =>
    rw [List.cons_append]
    rw [List.find?_cons_of_neg]
    · apply ih
      simp only [List.any_cons, Bool.or_eq_false_iff] at h
      exact h.2
    · simp only [List.any_cons, Bool.or_eq_false_iff] at h
      simpa using h.1

/-- After `set_last_scan`, reading back the same name yields the stored
timestamp. -/
theorem get_last_scan_set_last_scan (s : StorageState) (name : String) (t : ℚ) :
    get_last_scan (set_last_scan s name t) name = some t := by
  unfold set_last_scan
  by_cases h : s.scan_state.any (fun p => p.1 = name) = true
  · rw [if_pos h]
    unfold get_last_scan
    dsimp only
    rw [find_upsert s.scan_state name t h]
    rfl
  · rw [if_neg h]
    unfold get_last_scan
    dsimp only
    rw [find_append_new s.scan_state name t (by rwa [Bool.not_eq_true] at h)]
    rfl

/-- Counterexample to claim C9: the job-board scan is enabled, no previous
run is recorded and budget remains, yet when area resolution yields no
candidate area and no country id the phase completes (returns its report
row) without updating the `hh_jobs` scan-state timestamp. -/
theorem claim9_counterexample :
    ({ fixSettings with jobs_scan_enabled := true } : Settings).jobs_scan_enabled = true ∧
    get_last_scan (initRunState emptyStorage).storage ("hh_jobs") = none ∧
    get_last_scan
      (scan_hh_jobs { fixSettings with jobs_scan_enabled := true } 0
        fixHhInputsDown 5 (initRunState emptyStorage)).storage ("hh_jobs") = none := by
  decide

/-- Claim C9 (amended): whenever the job-board phase runs (enabled and not
throttled) and area resolution yields at least one candidate area or a
country-level id, the `hh_jobs` scan-state timestamp is set to the run's
start time on completion, whether or not any vacancy was found; on the
"area not found" early return the timestamp is not updated. -/
theorem claim9_scan_state_updated (settings : Settings) (now : ℚ)
    (inputs : HhInputs) (remaining : Nat) (st : RunState)
    (hen : settings.jobs_scan_enabled = true)
    (hint : ∀ last, get_last_scan st.storage ("hh_jobs") = some last →
      ¬ ((now - last) / 3600 < (settings.jobs_scan_interval_hours : ℚ)))
    (harea : (if (resolvedAreaIds inputs).almaty ≠ [] then
        (resolvedAreaIds inputs).almaty else settings.hh_areas) ≠ [] ∨
      (resolvedAreaIds inputs).kz ≠ "") :
    get_last_scan (scan_hh_jobs settings now inputs remaining st).storage
      ("hh_jobs") = some now := by
  have hbody : get_last_scan
      (scan_hh_body settings now inputs remaining st).storage ("hh_jobs")
      = some now := by
    unfold scan_hh_body
    cases hai : inputs.area_ids with
    | ok ids =>
      have hr : resolvedAreaIds inputs = ids := by
        unfold resolvedAreaIds
        rw [hai]
      rw [hr] at harea
      dsimp only
      rw [if_neg (fun hand => harea.elim (fun hc => hc hand.1) (fun hk => hk hand.2))]
      unfold hh_queries_run
      exact get_last_scan_set_last_scan _ _ now
    | error e =>
      have hr : resolvedAreaIds inputs = { kz := "", almaty := [] } := by
        unfold resolvedAreaIds
        rw [hai]
      rw [hr] at harea
      dsimp only
      rw [if_neg (fun hand => harea.elim (fun hc => hc hand.1) (fun hk => hk hand.2))]
      unfold hh_queries_run
      exact get_last_scan_set_last_scan _ _ now
  unfold scan_hh_jobs
  rw [hen]
  rw [if_neg (by decide : ¬ ((!true) = true))]
  cases hls : get_last_scan st.storage ("hh_jobs") with
  | none => exact hbody
  | some last =>
    dsimp only
    rw [if_neg (hint last hls)]
    exact hbody

/-- Witness for the amended C9: areas resolve, every fetch fails, no
vacancy is found — the timestamp is still written. -/
theorem claim9_witness :
    get_last_scan
      (scan_hh_jobs fixSettingsHh 0 fixHhInputsErr 5
        (initRunState emptyStorage)).storage ("hh_jobs") = some 0 :=
  claim9_scan_state_updated fixSettingsHh 0 fixHhInputsErr 5
    (initRunState emptyStorage) rfl
    (fun last h => by
      rw [show get_last_scan (initRunState emptyStorage).storage ("hh_jobs")
            = none from rfl] at h
      cases h)
    (by decide)

/-! ### Lead-provenance lemmas for the job-board scan -/

theorem set_last_scan_leads (s : StorageState) (name : String) (t : ℚ) :
    (set_last_scan s name t).leads = s.leads := by
  unfold set_last_scan
  split <;> rfl

/-- Folding a step that only ever appends leads satisfying `Q` preserves
that provenance property. -/
theorem foldl_new_leads {α : Type} (Q : StoredLead → Prop)
    (f : RunState → α → RunState)
    (hf : ∀ st a r, r ∈ (f st a).storage.leads → r ∈ st.storage.leads ∨ Q r) :
    ∀ (l : List α) (st : RunState) (r : StoredLead),
      r ∈ (l.foldl f st).storage.leads → r ∈ st.storage.leads ∨ Q r := by
  intro l
  induction l with
  | nil => exact fun st r h => Or.inl h
  | cons a rest ih =>
    intro st r h
    rw [List.foldl_cons] at h
    rcases ih (f st a) r h with h2 | h2
    · exact hf st a r h2
    · exact Or.inr h2

/-- Every lead `process_vacancy` adds is the stored form of a job-board
lead built by `mkHhLead`. -/
theorem process_vacancy_new (settings : Settings) (now : ℚ)
    (detail : String → Except String (Option HhDetail)) (remaining : Nat)
    (st : RunState) (v : Vacancy) (r : StoredLead)
    (h : r ∈ (process_vacancy settings now detail remaining st v).storage.leads) :
    r ∈ st.storage.leads ∨
      ∃ t s u p c nw, r = storedOf (mkHhLead t s u p c) nw := by
  unfold process_vacancy at h
  by_cases h1 : remaining ≤ st.hh_items
  · rw [if_pos h1] at h
    exact Or.inl h
  · rw [if_neg h1] at h
    dsimp only at h
    by_cases h2 : vacancy_url v = ""
    · rw [if_pos h2] at h
      exact Or.inl h
    · rw [if_neg h2] at h
      by_cases h3 : is_seen st.storage (vacancy_url v) = true
      · rw [if_pos h3] at h
        exact Or.inl h
      · rw [if_neg h3] at h
        cases hd : detail v.id with
        | ok d =>
          rw [hd] at h
          dsimp only at h
          split at h <;>
            [skip; skip] <;>
            first
            | (split at h <;>
                (rw [mark_seen_leads] at h
                 exact (save_lead_mem _ now _ r h).imp id
                   (fun he => ⟨_, _, _, _, _, now, he⟩)))
            | (rw [mark_seen_leads] at h
               exact (save_lead_mem _ now _ r h).imp id
                 (fun he => ⟨_, _, _, _, _, now, he⟩))
        | error e =>
          rw [hd] at h
          dsimp only at h
          split at h <;>
            [skip; skip] <;>
            first
            | (split at h <;>
                (rw [mark_seen_leads] at h
                 exact (save_lead_mem _ now _ r h).imp id
                   (fun he => ⟨_, _, _, _, _, now, he⟩)))
            | (rw [mark_seen_leads] at h
               exact (save_lead_mem _ now _ r h).imp id
                 (fun he => ⟨_, _, _, _, _, now, he⟩))

/-- The per-query area loop never touches the storage. -/
theorem hh_area_loop_storage
    (fetch : String → String → Except String HhSearchResult) (query : String) :
    ∀ (areas : List String) (acc : RunState × List Vacancy × Nat),
      (hh_area_loop fetch query areas acc).1.storage = acc.1.storage := by
  intro areas
  induction areas with
  | nil => exact fun acc => rfl
  | cons a rest ih =>
    intro acc
    obtain ⟨st, vacs, found⟩ := acc
    show (hh_area_loop fetch query (a :: rest) (st, vacs, found)).1.storage = _
    unfold hh_area_loop
    cases hf : fetch query a with
    | error e =>
      dsimp only
      rw [ih]
    | ok result =>
      dsimp only
      split
      · rfl
      · rw [ih]

/-- Every lead one query of the HH scan adds is a stored `mkHhLead`. -/
theorem hh_query_step_new (settings : Settings) (now : ℚ)
    (fetch : String → String → Except String HhSearchResult)
    (detail : String → Except String (Option HhDetail))
    (kz_id : String) (areas : List String) (remaining : Nat)
    (st : RunState) (q : String) (r : StoredLead)
    (h : r ∈ (hh_query_step settings now fetch detail kz_id areas remaining
        st q).storage.leads) :
    r ∈ st.storage.leads ∨
      ∃ t s u p c nw, r = storedOf (mkHhLead t s u p c) nw := by
  unfold hh_query_step at h
  by_cases h1 : remaining ≤ st.hh_items
  · rw [if_pos h1] at h
    exact Or.inl h
  · rw [if_neg h1] at h
    dsimp only at h
    have hmain := foldl_new_leads
      (fun r => ∃ t s u p c nw, r = storedOf (mkHhLead t s u p c) nw)
      (process_vacancy settings now detail remaining)
      (fun st2 a r2 h2 => process_vacancy_new settings now detail remaining st2 a r2 h2)
      _ _ r h
    rcases hmain with h2 | h2
    · refine Or.inl ?_
      revert h2
      split
      · split
        · intro h2
          rw [hh_area_loop_storage] at h2
          exact h2
        · intro h2
          rw [hh_area_loop_storage] at h2
          exact h2
      · intro h2
        rw [hh_area_loop_storage] at h2
        exact h2
    · exact Or.inr h2

/-- Every lead the query loop (plus scan-state update) adds is a stored
`mkHhLead`. -/
theorem hh_queries_run_new (settings : Settings) (now : ℚ)
    (fetch : String → String → Except String HhSearchResult)
    (detail : String → Except String (Option HhDetail))
    (kz_id : String) (areas : List String) (remaining : Nat)
    (st : RunState) (r : StoredLead)
    (h : r ∈ (hh_queries_run settings now fetch detail kz_id areas remaining
        st).storage.leads) :
    r ∈ st.storage.leads ∨
      ∃ t s u p c nw, r = storedOf (mkHhLead t s u p c) nw := by
  unfold hh_queries_run at h
  dsimp only at h
  rw [set_last_scan_leads] at h
  exact foldl_new_leads _ _
    (fun st2 a r2 h2 => hh_query_step_new settings now fetch detail kz_id
      areas remaining st2 a r2 h2) _ _ r h

/-- Every lead `scan_hh_body` adds is a stored `mkHhLead`. -/
theorem scan_hh_body_new (settings : Settings) (now : ℚ) (inputs : HhInputs)
    (remaining : Nat) (st : RunState) (r : StoredLead)
    (h : r ∈ (scan_hh_body settings now inputs remaining st).storage.leads) :
    r ∈ st.storage.leads ∨
      ∃ t s u p c nw, r = storedOf (mkHhLead t s u p c) nw := by
  unfold scan_hh_body at h
  cases hai : inputs.area_ids with
  | ok ids =>
    rw [hai] at h
    dsimp only at h
    split at h <;> split at h <;>
      first
      | exact Or.inl h
      | exact (hh_queries_run_new settings now inputs.fetch inputs.detail _ _
          remaining _ r h).imp (fun h2 => h2) (fun h2 => h2)
  | error e =>
    rw [hai] at h
    dsimp only at h
    split at h <;> split at h <;>
      first
      | exact Or.inl h
      | exact (hh_queries_run_new settings now inputs.fetch inputs.detail _ _
          remaining _ r h).imp (fun h2 => h2) (fun h2 => h2)

/-- Every lead the whole job-board phase adds is a stored `mkHhLead`. -/
theorem scan_hh_jobs_new (settings : Settings) (now : ℚ) (inputs : HhInputs)
    (remaining : Nat) (st : RunState) (r : StoredLead)
    (h : r ∈ (scan_hh_jobs settings now inputs remaining st).storage.leads) :
    r ∈ st.storage.leads ∨
      ∃ t s u p c nw, r = storedOf (mkHhLead t s u p c) nw := by
  unfold scan_hh_jobs at h
  split at h
  · exact Or.inl h
  · split at h
    · split at h
      · exact Or.inl h
      · exact scan_hh_body_new settings now inputs remaining st r h
    · exact scan_hh_body_new settings now inputs remaining st r h

/-! ### Claims C2 and C10 -/

/-- Claim C2: every lead the job-board phase persists (i.e., in storage
afterwards but not before) carries
`demand_score = min(100, max(70, demand_score(title, summary)) +
strong_signal_bonus(title ++ " " ++ summary))`, hence a score between 70
and 100. -/
theorem claim2_hh_lead_score (settings : Settings) (now : ℚ)
    (inputs : HhInputs) (remaining : Nat) (st : RunState) (r : StoredLead)
    (hmem : r ∈ (scan_hh_jobs settings now inputs remaining st).storage.leads)
    (hnew : r ∉ st.storage.leads) :
    r.demand_score =
      min 100 (max 70 (demand_score r.title r.summary)
        + strong_signal_bonus (r.title ++ " " ++ r.summary)) ∧
    70 ≤ r.demand_score ∧ r.demand_score ≤ 100 := by
  rcases scan_hh_jobs_new settings now inputs remaining st r hmem with h | h
  · exact absurd h hnew
  · obtain ⟨t, s2, u, p, c, nw, rfl⟩ := h
    refine ⟨rfl, ?_, ?_⟩
    · show 70 ≤ hhLeadScore t s2
      unfold hhLeadScore
      omega
    · show hhLeadScore t s2 ≤ 100
      unfold hhLeadScore
      omega

set_option maxRecDepth 100000 in
/-- Witness for C2: a one-vacancy scan persists exactly the lead built by
`mkHhLead`, and the theorem applies to it. -/
theorem claim2_witness :
    (storedOf fixHhLead 0).demand_score =
      min 100 (max 70 (demand_score (storedOf fixHhLead 0).title
          (storedOf fixHhLead 0).summary)
        + strong_signal_bonus ((storedOf fixHhLead 0).title ++ " " ++
            (storedOf fixHhLead 0).summary)) ∧
    70 ≤ (storedOf fixHhLead 0).demand_score ∧
    (storedOf fixHhLead 0).demand_score ≤ 100 :=
  claim2_hh_lead_score fixSettingsHh 0 fixHhInputs 1 (initRunState emptyStorage)
    (storedOf fixHhLead 0) (by decide) (by decide)

/-- Every lead `process_rss_item` adds has its timing computed from its
own title and summary by `detect_timing`. -/
theorem process_rss_item_new (settings : Settings) (now : ℚ) (st : RunState)
    (item : RssItem) (r : StoredLead)
    (h : r ∈ (process_rss_item settings now st item).storage.leads) :
    r ∈ st.storage.leads ∨ r.timing = detect_timing r.title r.summary := by
  unfold process_rss_item at h
  by_cases h1 : settings.max_items_per_run ≤ st.collected
  · rw [if_pos h1] at h
    exact Or.inl h
  · rw [if_neg h1] at h
    dsimp only at h
    by_cases h2 : item.url = ""
    · rw [if_pos h2] at h
      exact Or.inl h
    · rw [if_neg h2] at h
      by_cases h3 : is_seen st.storage item.url = true
      · rw [if_pos h3] at h
        exact Or.inl h
      · rw [if_neg h3] at h
        by_cases h4 : is_relevant_lead item.title item.summary = true
        · rw [h4] at h
          rw [if_neg (by decide : ¬ ((!true) = true))] at h
          try dsimp only at h
          split at h
          · split at h <;>
              (rw [mark_seen_leads] at h
               exact (save_lead_mem _ now _ r h).imp id
                 (fun he => by rw [he]; rfl))
          · rw [mark_seen_leads] at h
            exact (save_lead_mem _ now _ r h).imp id
              (fun he => by rw [he]; rfl)
        · rw [Bool.not_eq_true] at h4
          rw [h4] at h
          rw [if_pos (by decide : (!false) = true)] at h
          try dsimp only at h
          rw [mark_seen_leads] at h
          exact Or.inl h

/-- Every lead one feed adds has detect_timing-derived timing. -/
theorem process_feed_new (settings : Settings) (now : ℚ) (st : RunState)
    (feed : String × FetchResult) (r : StoredLead)
    (h : r ∈ (process_feed settings now st feed).storage.leads) :
    r ∈ st.storage.leads ∨ r.timing = detect_timing r.title r.summary := by
  unfold process_feed at h
  cases hf : feed.2 with
  | err msg =>
    rw [hf] at h
    exact Or.inl h
  | ok items =>
    rw [hf] at h
    dsimp only at h
    have h5 := foldl_new_leads
      (fun r2 => r2.timing = detect_timing r2.title r2.summary)
      (process_rss_item settings now)
      (fun st2 a r2 h2 => process_rss_item_new settings now st2 a r2 h2)
      items _ r h
    exact h5.imp (fun x => x) (fun x => x)

/-- Every lead the RSS phase adds has detect_timing-derived timing. -/
theorem rss_phase_new (settings : Settings) (now : ℚ) :
    ∀ (feeds : List (String × FetchResult)) (st : RunState) (r : StoredLead),
      r ∈ (rss_phase settings now feeds st).storage.leads →
      r ∈ st.storage.leads ∨ r.timing = detect_timing r.title r.summary := by
  intro feeds
  induction feeds with
  | nil => exact fun st r h => Or.inl h
  | cons f rest ih =>
    intro st r h
    unfold rss_phase at h
    dsimp only at h
    split at h
    · exact process_feed_new settings now st f r h
    · rcases ih _ r h with h2 | h2
      · exact process_feed_new settings now st f r h2
      · exact Or.inr h2

/-- Claim C10: every lead persisted by the job-board phase has the
constant timing bucket "0–3 мес" (and source "HeadHunter"), regardless of
the vacancy's text — while every lead persisted by the RSS phase has its
timing computed from its own text by `detect_timing`. -/
theorem claim10_hh_timing_constant (settings : Settings) (now : ℚ) :
    (∀ (inputs : HhInputs) (remaining : Nat) (st : RunState) (r : StoredLead),
      r ∈ (scan_hh_jobs settings now inputs remaining st).storage.leads →
      r ∉ st.storage.leads →
      r.timing = "0–3 мес" ∧ r.source = "HeadHunter") ∧
    (∀ (feeds : List (String × FetchResult)) (st : RunState) (r : StoredLead),
      r ∈ (rss_phase settings now feeds st).storage.leads →
      r ∉ st.storage.leads →
      r.timing = detect_timing r.title r.summary) := by
  constructor
  · intro inputs remaining st r hmem hnew
    rcases scan_hh_jobs_new settings now inputs remaining st r hmem with h | h
    · exact absurd h hnew
    · obtain ⟨t, s2, u, p, c, nw, rfl⟩ := h
      exact ⟨rfl, rfl⟩
  · intro feeds st r hmem hnew
    rcases rss_phase_new settings now feeds st r hmem with h | h
    · exact absurd h hnew
    · exact h

set_option maxRecDepth 100000 in
/-- Witness for C10: a job-board lead gets the constant bucket, an RSS
lead gets its detect_timing value. -/
theorem claim10_witness :
    ((storedOf fixHhLead 0).timing = "0–3 мес" ∧
     (storedOf fixHhLead 0).source = "HeadHunter") ∧
    (storedOf fixLeadRel 0).timing =
      detect_timing (storedOf fixLeadRel 0).title (storedOf fixLeadRel 0).summary :=
  ⟨(claim10_hh_timing_constant fixSettingsHh 0).1 fixHhInputs 1
      (initRunState emptyStorage) (storedOf fixHhLead 0) (by decide) (by decide),
   (claim10_hh_timing_constant fixSettings 0).2 [("f1", .ok [fixItemRel])]
      (initRunState emptyStorage) (storedOf fixLeadRel 0) (by decide) (by decide)⟩

/-! ### Claim C6 -/

/-- `process_rss_item` never touches the feed counters, the error lists,
the scan counters of the other sources, or `rss_items`. -/
theorem process_rss_item_proj (settings : Settings) (now : ℚ) (st : RunState)
    (item : RssItem) :
    (process_rss_item settings now st item).feeds_ok = st.feeds_ok ∧
    (process_rss_item settings now st item).feeds_failed = st.feeds_failed ∧
    (process_rss_item settings now st item).rss_errors = st.rss_errors ∧
    (process_rss_item settings now st item).yandex_items = st.yandex_items ∧
    (process_rss_item settings now st item).yandex_new = st.yandex_new ∧
    (process_rss_item settings now st item).hh_items = st.hh_items ∧
    (process_rss_item settings now st item).hh_new = st.hh_new ∧
    (process_rss_item settings now st item).rss_items = st.rss_items := by
  unfold process_rss_item
  dsimp only
  split_ifs <;>
    exact ⟨rfl, rfl, rfl, rfl, rfl, rfl, rfl, rfl⟩

/-- The seen-branch of the RSS item loop in closed form. -/
theorem process_rss_item_seen_eq (settings : Settings) (now : ℚ)
    (st : RunState) (item : RssItem)
    (hcap : st.collected < settings.max_items_per_run)
    (hurl : item.url ≠ "")
    (hseen : is_seen st.storage item.url = true) :
    process_rss_item settings now st item =
      { st with collected := st.collected + 1, rss_seen := st.rss_seen + 1 } := by
  unfold process_rss_item
  rw [if_neg (by omega : ¬ settings.max_items_per_run ≤ st.collected)]
  dsimp only
  rw [if_neg hurl]
  rw [if_pos hseen]

/-- A `save_lead` whose url is not stored yet appends and reports true. -/
theorem save_lead_fresh (s : StorageState) (now : ℚ) (lead : LeadInput)
    (h : s.leads.any (fun r => r.url = lead.url) = false) :
    save_lead s now lead =
      ({ s with leads := s.leads ++ [storedOf lead now] }, true) := by
  unfold save_lead
  rw [if_neg (by rw [h]; exact Bool.false_ne_true)]

/-- The fresh-and-relevant branch of the RSS item loop: one lead is
persisted, `collected` is bumped, `rss_seen` is not, and the seen set only
grows. -/
theorem process_rss_item_fresh_facts (settings : Settings) (now : ℚ)
    (st : RunState) (item : RssItem)
    (hcap : st.collected < settings.max_items_per_run)
    (hurl : item.url ≠ "")
    (hseen : is_seen st.storage item.url = false)
    (hrel : is_relevant_lead item.title item.summary = true)
    (hfresh : st.storage.leads.any (fun r => r.url = item.url) = false) :
    (process_rss_item settings now st item).new_leads = st.new_leads + 1 ∧
    (process_rss_item settings now st item).collected = st.collected + 1 ∧
    (process_rss_item settings now st item).rss_seen = st.rss_seen ∧
    (∀ u, is_seen st.storage u = true →
      is_seen (process_rss_item settings now st item).storage u = true) := by
  unfold process_rss_item
  rw [if_neg (by omega : ¬ settings.max_items_per_run ≤ st.collected)]
  dsimp only
  rw [if_neg hurl]
  rw [hseen]
  rw [if_neg (by decide : ¬ (false = true))]
  rw [hrel]
  rw [if_neg (by decide : ¬ ((!true) = true))]
  rw [save_lead_fresh st.storage now _ hfresh]
  dsimp only
  rw [if_pos (rfl : true = true)]
  split
  · exact ⟨rfl, rfl, rfl,
      fun u hu => is_seen_mark_seen_mono _ now item.url u hu⟩
  · exact ⟨rfl, rfl, rfl,
      fun u hu => is_seen_mark_seen_mono _ now item.url u hu⟩

/-- A failing feed only increments the failure counter and records a
diagnostic. -/
theorem process_feed_err (settings : Settings) (now : ℚ) (st : RunState)
    (u e : String) :
    process_feed settings now st (u, FetchResult.err e) =
      { st with feeds_failed := st.feeds_failed + 1,
                rss_errors := st.rss_errors ++ [u ++ ": " ++ e] } := rfl

/-- A disabled job-board scan only resets its diagnostic fields. -/
theorem scan_hh_jobs_disabled (settings : Settings) (now : ℚ)
    (inputs : HhInputs) (remaining : Nat) (st : RunState)
    (h : settings.jobs_scan_enabled = false) :
    scan_hh_jobs settings now inputs remaining st =
      { st with hh_status_code := 0, hh_found := 0, hh_links := [],
                hh_error := none } := by
  unfold scan_hh_jobs
  rw [h]
  rw [if_pos (by decide : (!false) = true)]

/-- Claim C6: a run over one reachable feed returning three items (one
new and relevant, two already seen) and one feed failing with a timeout
completes (the embedding is a total function) and reports feeds_ok = 1,
feeds_failed = 1, new_leads = 1 and a single non-empty rss_errors entry
naming the failed feed — a feed failure only increments the failure
counter and records a diagnostic while the scan continues. -/
theorem claim6_feed_failure_isolated (settings : Settings) (now : ℚ)
    (storage0 : StorageState) (inp : RadarInputs)
    (u1 u2 e : String) (a b c : RssItem)
    (hfeeds : inp.feeds = [(u1, FetchResult.ok [a, b, c]),
      (u2, FetchResult.err e)])
    (hx : settings.yandex_xml_enabled = false)
    (hs : settings.yandex_serpapi_enabled = false)
    (hj : settings.jobs_scan_enabled = false)
    (hcap : 3 < settings.max_items_per_run)
    (ha_url : a.url ≠ "") (ha_seen : is_seen storage0 a.url = false)
    (ha_rel : is_relevant_lead a.title a.summary = true)
    (ha_fresh : storage0.leads.any (fun r => r.url = a.url) = false)
    (hb_url : b.url ≠ "") (hb_seen : is_seen storage0 b.url = true)
    (hc_url : c.url ≠ "") (hc_seen : is_seen storage0 c.url = true) :
    (run_radar_once settings now storage0 inp).2.feeds_ok = 1 ∧
    (run_radar_once settings now storage0 inp).2.feeds_failed = 1 ∧
    (run_radar_once settings now storage0 inp).2.new_leads = 1 ∧
    (run_radar_once settings now storage0 inp).2.rss_errors = [u2 ++ ": " ++ e] ∧
    (run_radar_once settings now storage0 inp).2.rss_errors ≠ [] := by
  set s0 : RunState := initRunState storage0 with hs0
  set sB : RunState :=
    { s0 with feeds_ok := s0.feeds_ok + 1,
              rss_items := s0.rss_items + [a, b, c].length } with hsB
  set s1 : RunState := process_rss_item settings now sB a with hs1
  have h1facts := process_rss_item_fresh_facts settings now sB a
    (show sB.collected < settings.max_items_per_run by
      rw [show sB.collected = 0 from rfl]; omega)
    ha_url ha_seen ha_rel ha_fresh
  rw [← hs1] at h1facts
  have h1proj := process_rss_item_proj settings now sB a
  rw [← hs1] at h1proj
  set S2 : RunState :=
    { s1 with collected := s1.collected + 1, rss_seen := s1.rss_seen + 1 }
    with hS2
  set S3 : RunState :=
    { S2 with collected := S2.collected + 1, rss_seen := S2.rss_seen + 1 }
    with hS3
  have hc1 : s1.collected = 1 := by
    rw [h1facts.2.1]
    exact rfl
  have hc2 : S2.collected = 2 := by
    rw [show S2.collected = s1.collected + 1 from rfl, hc1]
  have hc3 : S3.collected = 3 := by
    rw [show S3.collected = S2.collected + 1 from rfl, hc2]
  have h2eq : process_rss_item settings now s1 b = S2 :=
    process_rss_item_seen_eq settings now s1 b
      (by rw [hc1]; omega) hb_url
      (h1facts.2.2.2 b.url hb_seen)
  have h3eq : process_rss_item settings now S2 c = S3 :=
    process_rss_item_seen_eq settings now S2 c
      (by rw [hc2]; omega) hc_url
      (h1facts.2.2.2 c.url hc_seen)
  have hfeed1 : process_feed settings now s0 (u1, FetchResult.ok [a, b, c]) = S3 := by
    unfold process_feed
    dsimp only
    rw [← hsB]
    rw [List.foldl_cons, List.foldl_cons, List.foldl_cons, List.foldl_nil]
    rw [← hs1, h2eq, h3eq]
  set SE : RunState :=
    { S3 with feeds_failed := S3.feeds_failed + 1,
              rss_errors := S3.rss_errors ++ [u2 ++ ": " ++ e] } with hSE
  have hphase : rss_phase settings now
      [(u1, FetchResult.ok [a, b, c]), (u2, FetchResult.err e)] s0 = SE := by
    unfold rss_phase
    dsimp only
    rw [hfeed1]
    rw [if_neg (show ¬ settings.max_items_per_run ≤ S3.collected by
      rw [hc3]; omega)]
    unfold rss_phase
    dsimp only
    rw [process_feed_err]
    rw [← hSE]
    split <;> rfl
  have hok : SE.feeds_ok = 1 := by
    rw [show SE.feeds_ok = s1.feeds_ok from rfl, h1proj.1]
    exact rfl
  have hfail : SE.feeds_failed = 1 := by
    rw [show SE.feeds_failed = s1.feeds_failed + 1 from rfl, h1proj.2.1]
    exact rfl
  have hnewE : SE.new_leads = 1 := by
    rw [show SE.new_leads = s1.new_leads from rfl, h1facts.1]
    exact rfl
  have herrE : SE.rss_errors = [u2 ++ ": " ++ e] := by
    rw [show SE.rss_errors = s1.rss_errors ++ [u2 ++ ": " ++ e] from rfl,
      h1proj.2.2.1]
    rfl
  have hcolE : SE.collected = 3 := by
    rw [show SE.collected = S3.collected from rfl, hc3]
  have hhnewE : SE.hh_new = 0 := by
    rw [show SE.hh_new = s1.hh_new from rfl, h1proj.2.2.2.2.2.2.1]
    exact rfl
  have hhitemsE : SE.hh_items = 0 := by
    rw [show SE.hh_items = s1.hh_items from rfl, h1proj.2.2.2.2.2.1]
    exact rfl
  unfold run_radar_once
  rw [hfeeds]
  dsimp only
  rw [← hs0, hphase]
  rw [hx, hs]
  rw [hcolE]
  rw [if_neg (by decide : ¬ (false = true))]
  rw [if_neg (by decide : ¬ (false = true))]
  rw [if_pos (show 0 < settings.max_items_per_run - 3 by omega)]
  dsimp only
  rw [hc1]
  rw [if_pos (show 0 < settings.max_items_per_run - (1 + 1 + 1) by omega)]
  rw [scan_hh_jobs_disabled settings now inp.hh _ SE hj]
  refine ⟨hok, hfail, ?_, herrE, ?_⟩
  · show SE.new_leads + SE.hh_new = 1
    rw [hnewE, hhnewE]
  · show SE.rss_errors ≠ []
    rw [herrE]
    exact List.cons_ne_nil _ _

/-- Witness for C6 on concrete feeds, items and storage. -/
theorem claim6_witness :
    (run_radar_once fixSettings 0 fixStorage6 fixInp6).2.feeds_ok = 1 ∧
    (run_radar_once fixSettings 0 fixStorage6 fixInp6).2.feeds_failed = 1 ∧
    (run_radar_once fixSettings 0 fixStorage6 fixInp6).2.new_leads = 1 ∧
    (run_radar_once fixSettings 0 fixStorage6 fixInp6).2.rss_errors =
      [("f2") ++ ": " ++ ("timeout")] ∧
    (run_radar_once fixSettings 0 fixStorage6 fixInp6).2.rss_errors ≠ [] :=
  claim6_feed_failure_isolated fixSettings 0 fixStorage6 fixInp6
    ("f1") ("f2") ("timeout") fixItemRel fixItemB fixItemC
    rfl rfl rfl rfl (by decide) (by decide) (by decide) (by decide)
    (by decide) (by decide) (by decide) (by decide) (by decide)

end Radar



